import Mathlib

/-!
Verification of the `/api/snow` serverless endpoint (src/api/snow.js).

The JavaScript source is shallowly embedded: JSON numbers that can be
non-finite are modelled by `JVal` (a finite rational, `null`, `NaN`, `±∞`);
the provider's parsed HTTP response by `OMResponse`; the network itself by
an environment function from coordinates to responses; `Promise.all` by a
fail-fast list traversal; thrown errors by `Except String`.
-/

namespace SnowReport

/-- A JSON value occupying a slot of the provider's `hourly.snowfall` array:
a finite number, or one of the non-finite / missing values that
`Number.isFinite` rejects. -/
inductive JVal where
  | num (q : ℚ)
  | null
  | nan
  | inf
  | neginf
deriving DecidableEq, Repr

/-- JS `Number.isFinite(b)` from src/api/snow.js line 48. -/
def isFiniteVal : JVal → Bool
  | .num _ => true
  | _ => false

/-- Numeric value of a finite entry (0 for the non-finite ones). -/
def finVal : JVal → ℚ
  | .num q => q
  | _ => 0

/-- One reduction step of the `sum` accumulator:
`(Number.isFinite(b) ? b : 0)` (src/api/snow.js line 48). -/
def term (b : JVal) : ℚ := if isFiniteVal b then finVal b else 0

/-- Source `function sum(arr) { return arr.reduce((a, b) => a + (Number.isFinite(b) ? b : 0), 0); }`
(src/api/snow.js lines 47-49). -/
def sum (arr : List JVal) : ℚ := arr.foldl (fun a b => a + term b) 0

/-- Conversion `(cm) => cm / 2.54` (src/api/snow.js line 79). -/
def cmToIn (cm : ℚ) : ℚ := cm / 2.54

/-- Rounding `Number(x.toFixed(1))`: round to one decimal place; `toFixed` picks the
nearest multiple of 1/10, ties going to the larger value, which is `round`
(⌊10x + 1/2⌋). -/
def toFixed1 (x : ℚ) : ℚ := (round (10 * x) : ℤ) / 10

/-- The `hourly` object of the provider's JSON body; either array may be
absent (`data?.hourly?.time || []`). -/
structure HourlyData where
  time : Option (List String)
  snowfall : Option (List JVal)

/-- The provider's HTTP response as seen by `fetchOpenMeteoSnow` after
`await fetch(...)` and `await res.json()`: the `ok` flag, the status code,
and the optional `hourly` object. -/
structure OMResponse where
  ok : Bool
  status : Nat
  hourly : Option HourlyData

/-- Parsing `const times = data?.hourly?.time || []` (src/api/snow.js line 68). -/
def timesOf (r : OMResponse) : List String := (r.hourly.bind HourlyData.time).getD []

/-- Parsing `const snowfallCm = data?.hourly?.snowfall || []` (src/api/snow.js line 69). -/
def snowfallCmOf (r : OMResponse) : List JVal := (r.hourly.bind HourlyData.snowfall).getD []

/-- Length `const n = Math.min(times.length, snowfallCm.length)` (line 72). -/
def usableLen (r : OMResponse) : Nat := min (timesOf r).length (snowfallCmOf r).length

/-- Window `snowfallCm.slice(Math.max(0, n - 24), n)` (line 75): JS `slice(a, b)` is
take-`b`-then-drop-`a`, and Nat subtraction is `Math.max(0, ·)`. -/
def window24 (r : OMResponse) : List JVal :=
  ((snowfallCmOf r).take (usableLen r)).drop (usableLen r - 24)

/-- Window `snowfallCm.slice(Math.max(0, n - 72), n)` (line 76). -/
def window72 (r : OMResponse) : List JVal :=
  ((snowfallCmOf r).take (usableLen r)).drop (usableLen r - 72)

/-- Totals `{ snow24_in, snow72_in }` returned by `fetchOpenMeteoSnow`; `null`
totals are `none`. -/
structure SnowTotals where
  snow24_in : Option ℚ
  snow72_in : Option ℚ
deriving DecidableEq, Repr

/-- Function `fetchOpenMeteoSnow` (src/api/snow.js lines 51-84), given the provider's
response: throw `Open-Meteo error <status>` when `!res.ok`; return null
totals when `n === 0`; otherwise sum the two trailing windows, convert
cm to inches and round to one decimal. -/
def fetchOpenMeteoSnow (r : OMResponse) : Except String SnowTotals :=
  if !r.ok then .error ("Open-Meteo error " ++ toString r.status)
  else if usableLen r = 0 then .ok ⟨none, none⟩
  else .ok ⟨some (toFixed1 (cmToIn (sum (window24 r)))),
            some (toFixed1 (cmToIn (sum (window72 r))))⟩

/-- A registry record (src/api/snow.js lines 8-45); note there is no
`state` field in the source. -/
structure Resort where
  name : String
  region : String
  elevation_ft : ℤ
  lat : ℚ
  lon : ℚ
  report_url : String
  webcam_url : String

/-- The `RESORTS` constant (src/api/snow.js lines 8-45). -/
def RESORTS : List Resort :=
  [ { name := "Palisades Tahoe", region := "Olympic Valley", elevation_ft := 6200,
      lat := 39.1973, lon := -120.2358,
      report_url := "https://www.palisadestahoe.com/mountain-information/snow-and-weather-report",
      webcam_url := "https://www.palisadestahoe.com/mountain-information/webcams" },
    { name := "Heavenly", region := "South Lake Tahoe", elevation_ft := 10067,
      lat := 38.9351, lon := -119.9390,
      report_url := "https://www.skiheavenly.com/the-mountain/mountain-conditions/snow-and-weather-report.aspx",
      webcam_url := "https://www.skiheavenly.com/the-mountain/mountain-conditions/mountain-cams.aspx" },
    { name := "Northstar California", region := "Truckee", elevation_ft := 8610,
      lat := 39.2746, lon := -120.1210,
      report_url := "https://www.northstarcalifornia.com/the-mountain/mountain-conditions/snow-and-weather-report.aspx",
      webcam_url := "https://www.northstarcalifornia.com/the-mountain/mountain-conditions/mountain-cams.aspx" },
    { name := "Kirkwood", region := "Kirkwood", elevation_ft := 9800,
      lat := 38.6846, lon := -120.0650,
      report_url := "https://www.kirkwood.com/the-mountain/mountain-conditions/snow-and-weather-report.aspx",
      webcam_url := "https://www.kirkwood.com/the-mountain/mountain-conditions/mountain-cams.aspx" } ]

/-- JSON values, for the response bodies the handler emits. -/
inductive Json where
  | str (s : String)
  | num (q : ℚ)
  | intg (z : ℤ)
  | null
  | arr (xs : List Json)
  | obj (fields : List (String × Json))

/-- A nullable total rendered into JSON. -/
def optNumJson : Option ℚ → Json
  | some q => .num q
  | none => .null

/-- The per-resort object literal built inside `RESORTS.map`
(src/api/snow.js lines 91-106): registry fields, the two totals, the five
always-null ops metrics, and the two URLs, in source order. -/
def reportJson (r : Resort) (t : SnowTotals) : Json :=
  .obj [ ("name", .str r.name),
         ("region", .str r.region),
         ("elevation_ft", .intg r.elevation_ft),
         ("snow_24h_in", optNumJson t.snow24_in),
         ("snow_72h_in", optNumJson t.snow72_in),
         ("base_depth_in", .null),
         ("trails_open", .null),
         ("trails_total", .null),
         ("lifts_open", .null),
         ("lifts_total", .null),
         ("terrain_open_pct", .null),
         ("report_url", .str r.report_url),
         ("webcam_url", .str r.webcam_url) ]

/-- The inbound request: the spec speaks of an optional `state` query
parameter (`filter_state`); the source handler receives `req` but never
reads it. -/
structure Request where
  filter_state : Option String

/-- The network: each `(lat, lon)` pair determines the provider response
that `fetch` yields for it. -/
def Env := ℚ → ℚ → OMResponse

/-- Semantics of `Promise.all`: succeeds with every value in input order when every
promise fulfills; rejects with a failing promise's reason otherwise
(determinized here to the first in index order). -/
def promiseAll {α : Type} : List (Except String α) → Except String (List α)
  | [] => .ok []
  | .error e :: _ => .error e
  | .ok a :: rest =>
      match promiseAll rest with
      | .ok as_ => .ok (a :: as_)
      | .error e => .error e

/-- The array of per-resort promises `RESORTS.map(async (r) => ...)`
(src/api/snow.js lines 88-107): fetch for the resort's coordinates, then
build its report object. -/
def resortTasks (env : Env) : List (Except String Json) :=
  RESORTS.map (fun r => (fetchOpenMeteoSnow (env r.lat r.lon)).map (fun t => reportJson r t))

/-- Fixed `source:` string of the success payload (src/api/snow.js line 113). -/
def srcDescription : String := "Open-Meteo hourly snowfall (model) via /api/snow"

/-- The exported `handler` (src/api/snow.js lines 86-123): await all
per-resort fetches; on success respond 200 with
`{ updated_at, source, resorts }`; on any failure respond 500 with
`{ error, detail, updated_at }`. `now` stands for `new Date().toISOString()`
and `req` is ignored exactly as in the source. -/
def handler (req : Request) (now : String) (env : Env) : Nat × Json :=
  match promiseAll (resortTasks env) with
  | .ok reports =>
      (200, .obj [ ("updated_at", .str now),
                   ("source", .str srcDescription),
                   ("resorts", .arr reports) ])
  | .error e =>
      (500, .obj [ ("error", .str "Failed to fetch snow data"),
                   ("detail", .str e),
                   ("updated_at", .str now) ])

/-- Field lookup in a JSON object (`none` on non-objects and absent keys). -/
def lookupField (j : Json) (k : String) : Option Json :=
  match j with
  | .obj fields => fields.lookup k
  | _ => none

/-- Length of the `resorts` array of a handler response, when present. -/
def resortsCount (resp : Nat × Json) : Option Nat :=
  match lookupField resp.2 "resorts" with
  | some (.arr xs) => some xs.length
  | _ => none

/-- Modelled from the spec's words for claim C3: the trailing `k` elements
of the whole snowfall array (to be compared with the source's windows,
which slice the usable prefix instead). -/
def trailingOfArray (snow : List JVal) (k : Nat) : List JVal :=
  snow.drop (snow.length - k)

/-- Modelled from the spec's words: the trailing `min k n` elements of a
usable series of length `n`. -/
def windowSpec (usable : List JVal) (k : Nat) : List JVal :=
  usable.drop (usable.length - min k usable.length)

/-- Modelled from the spec's words for claim C8: round half away from zero
to an integer. -/
def roundHalfAway (y : ℚ) : ℤ := if 0 ≤ y then ⌊y + 1/2⌋ else ⌈y - 1/2⌉

/-- Modelled from the spec's words for claim C8: round half away from zero
to one decimal place. -/
def specRound1 (x : ℚ) : ℚ := (roundHalfAway (10 * x) : ℤ) / 10

/-! ### Concrete inputs used by witnesses and counterexamples -/

/-- A successful provider response with a single aligned hour of zero
snowfall. -/
def respOk1 : OMResponse := ⟨true, 200, some ⟨some ["t0"], some [.num 0]⟩⟩

/-- A network in which every resort's fetch yields `respOk1`. -/
def envOk0 : Env := fun _ _ => respOk1

/-- A failing provider response (HTTP 503). -/
def respBad : OMResponse := ⟨false, 503, none⟩

/-- A network in which every resort's fetch fails with HTTP 503. -/
def envBad : Env := fun _ _ => respBad

/-- A successful response whose snowfall array is longer than its time
array: one timestamp but two snowfall values, so only the first snowfall
entry is usable. -/
def respC3 : OMResponse := ⟨true, 200, some ⟨some ["t0"], some [.num 0, .num 254]⟩⟩

/-- The reports the handler builds when every fetch yields `respOk1`. -/
def reports0 : List Json := RESORTS.map (fun r => reportJson r ⟨some 0, some 0⟩)

/-! ### Helper lemmas -/

lemma foldl_term_shift (l : List JVal) (a : ℚ) :
    l.foldl (fun x b => x + term b) a = a + l.foldl (fun x b => x + term b) 0 := by
  induction l generalizing a with
  | nil => simp
  | cons v t ih =>
      simp only [List.foldl_cons]
      rw [ih (a + term v), ih (0 + term v)]
      ring

lemma sum_cons (v : JVal) (l : List JVal) : sum (v :: l) = term v + sum l := by
  simp only [sum, List.foldl_cons]
  rw [foldl_term_shift]
  ring_nf

lemma sum_append (l1 l2 : List JVal) : sum (l1 ++ l2) = sum l1 + sum l2 := by
  induction l1 with
  | nil => simp [sum]
  | cons v t ih => simp [sum_cons, ih]; ring

lemma sum_nonneg_of (l : List JVal) (h : ∀ v ∈ l, 0 ≤ term v) : 0 ≤ sum l := by
  induction l with
  | nil => simp [sum]
  | cons v t ih =>
      rw [sum_cons]
      have hv := h v (List.mem_cons_self v t)
      have ht := ih (fun w hw => h w (List.mem_cons_of_mem v hw))
      linarith

lemma sum_drop_le (l : List JVal) (k : Nat) (h : ∀ v ∈ l, 0 ≤ term v) :
    sum (l.drop k) ≤ sum l := by
  conv_rhs => rw [← List.take_append_drop k l]
  rw [sum_append]
  have : 0 ≤ sum (l.take k) :=
    sum_nonneg_of _ (fun v hv => h v (List.take_subset k l hv))
  linarith

lemma toFixed1_mono {x y : ℚ} (h : x ≤ y) : toFixed1 x ≤ toFixed1 y := by
  unfold toFixed1
  have : round (10 * x) ≤ round (10 * y) := by
    rw [round_eq, round_eq]
    exact Int.floor_le_floor (by linarith)
  have hc : ((round (10 * x) : ℤ) : ℚ) ≤ ((round (10 * y) : ℤ) : ℚ) := by
    exact_mod_cast this
  exact (div_le_div_iff_of_pos_right (by norm_num : (0:ℚ) < 10)).mpr hc

lemma cmToIn_mono {x y : ℚ} (h : x ≤ y) : cmToIn x ≤ cmToIn y := by
  unfold cmToIn
  exact (div_le_div_iff_of_pos_right (by norm_num : (0:ℚ) < 2.54)).mpr h

lemma toFixed1_eq_specRound1 {x : ℚ} (h : 0 ≤ x) : toFixed1 x = specRound1 x := by
  unfold toFixed1 specRound1 roundHalfAway
  rw [if_pos (by linarith : (0:ℚ) ≤ 10 * x), round_eq]

lemma promiseAll_ok {α : Type} {l : List (Except String α)} {xs : List α}
    (h : promiseAll l = .ok xs) : l = xs.map Except.ok := by
  induction l generalizing xs with
  | nil =>
      simp only [promiseAll] at h
      cases h
      rfl
  | cons x t ih =>
      cases x with
      | error e => simp [promiseAll] at h
      | ok a =>
          simp only [promiseAll] at h
          cases ht : promiseAll t with
          | error e => rw [ht] at h; cases h
          | ok as_ =>
              rw [ht] at h
              cases h
              simp [ih ht]

lemma promiseAll_error_of_mem {α : Type} {l : List (Except String α)} {e : String}
    (h : Except.error e ∈ l) : ∃ f, promiseAll l = .error f := by
  induction l with
  | nil => cases h
  | cons x t ih =>
      cases x with
      | error f => exact ⟨f, rfl⟩
      | ok a =>
          have ht : Except.error e ∈ t := by
            rcases List.mem_cons.mp h with h1 | h2
            · simp at h1
            · exact h2
          obtain ⟨f, hf⟩ := ih ht
          exact ⟨f, by simp [promiseAll, hf]⟩

lemma promiseAll_ok_of_all {α : Type} {l : List (Except String α)}
    (h : ∀ x ∈ l, ∃ a, x = .ok a) : ∃ xs, promiseAll l = .ok xs := by
  induction l with
  | nil => exact ⟨[], rfl⟩
  | cons x t ih =>
      obtain ⟨a, ha⟩ := h x (List.mem_cons_self x t)
      obtain ⟨xs, hxs⟩ := ih (fun y hy => h y (List.mem_cons_of_mem x hy))
      subst ha
      exact ⟨a :: xs, by simp [promiseAll, hxs]⟩

lemma fetch_isOk {resp : OMResponse} (hok : resp.ok = true) :
    ∃ t, fetchOpenMeteoSnow resp = .ok t := by
  by_cases hn : usableLen resp = 0
  · exact ⟨⟨none, none⟩, by simp [fetchOpenMeteoSnow, hok, hn]⟩
  · exact ⟨⟨some (toFixed1 (cmToIn (sum (window24 resp)))),
           some (toFixed1 (cmToIn (sum (window72 resp))))⟩,
      by simp [fetchOpenMeteoSnow, hok, hn]⟩

lemma tasks_all_ok {env : Env} (h : ∀ r ∈ RESORTS, (env r.lat r.lon).ok = true) :
    ∃ xs, promiseAll (resortTasks env) = .ok xs ∧ xs.length = RESORTS.length := by
  have hall : ∀ x ∈ resortTasks env, ∃ a, x = .ok a := by
    intro x hx
    obtain ⟨r, hr, hx'⟩ := List.mem_map.mp hx
    obtain ⟨t, ht⟩ := fetch_isOk (h r hr)
    exact ⟨reportJson r t, by rw [← hx', ht]; rfl⟩
  obtain ⟨xs, hxs⟩ := promiseAll_ok_of_all hall
  refine ⟨xs, hxs, ?_⟩
  have hm := promiseAll_ok hxs
  have : (resortTasks env).length = RESORTS.length := by
    unfold resortTasks; simp
  rw [hm] at this
  simpa using this

lemma windowSpec_eq_drop (s : List JVal) (n k : Nat) (hn : n ≤ s.length) :
    windowSpec (s.take n) k = (s.take n).drop (n - k) ∧
    (windowSpec (s.take n) k).length = min k n := by
  have hlen : (s.take n).length = n := by rw [List.length_take]; omega
  constructor
  · unfold windowSpec
    rw [hlen]
    congr 1
    omega
  · unfold windowSpec
    rw [List.length_drop, hlen]
    omega

/-! ### Claim C4 -/

/-- C4: for every provider response with `min(len(times), len(snowfall)) = 0`
(including absent or empty arrays), `fetchOpenMeteoSnow` returns both totals
as null (`none`) and raises no error. -/
theorem c4_empty_series (r : OMResponse) (hok : r.ok = true) (hn : usableLen r = 0) :
    fetchOpenMeteoSnow r = .ok ⟨none, none⟩ := by
  simp [fetchOpenMeteoSnow, hok, hn]

/-- Witness for C4 at the response with no `hourly` object at all. -/
theorem c4_empty_series_witness :
    fetchOpenMeteoSnow ⟨true, 200, none⟩ = .ok ⟨none, none⟩ :=
  c4_empty_series ⟨true, 200, none⟩ rfl rfl

/-! ### Claim C6 -/

/-- C6: for every provider response with a non-success status,
`fetchOpenMeteoSnow` fails with an error whose message includes the status
code (it is `"Open-Meteo error " ++ toString status`), and for every
successful provider response it returns a value, raising no error. -/
theorem c6_upstream_status (r : OMResponse) :
    (r.ok = false →
      fetchOpenMeteoSnow r = .error ("Open-Meteo error " ++ toString r.status) ∧
      ∃ pre post, fetchOpenMeteoSnow r = .error (pre ++ toString r.status ++ post)) ∧
    (r.ok = true → ∃ t, fetchOpenMeteoSnow r = .ok t) := by
  constructor
  · intro h
    refine ⟨by simp [fetchOpenMeteoSnow, h], "Open-Meteo error ", "", ?_⟩
    simp [fetchOpenMeteoSnow, h]
  · intro h
    exact fetch_isOk h

/-- Witness for C6: a 503 response produces the tagged error, a 200
response produces a value. -/
theorem c6_upstream_status_witness :
    fetchOpenMeteoSnow respBad = .error ("Open-Meteo error " ++ toString respBad.status) ∧
    ∃ t, fetchOpenMeteoSnow respOk1 = .ok t :=
  ⟨((c6_upstream_status respBad).1 rfl).1, (c6_upstream_status respOk1).2 rfl⟩

/-! ### Claim C5 -/

/-- C5: a non-finite or missing entry contributes exactly 0 to a window sum
(removing it from anywhere in the list leaves `sum` unchanged), and for any
usable series (`n > 0`) the returned totals are numbers (`some` rationals),
never null — in this embedding non-finite floats do not exist in the totals
by construction, so NaN cannot propagate. -/
theorem c5_nonfinite_zero (l1 l2 : List JVal) (v : JVal) (hv : isFiniteVal v = false)
    (r : OMResponse) (hok : r.ok = true) (hn : usableLen r ≠ 0) :
    sum (l1 ++ v :: l2) = sum (l1 ++ l2) ∧
    ∃ q24 q72 : ℚ, fetchOpenMeteoSnow r = .ok ⟨some q24, some q72⟩ := by
  constructor
  · rw [sum_append, sum_append, sum_cons]
    have hz : term v = 0 := by simp [term, hv]
    rw [hz]
    ring
  · exact ⟨toFixed1 (cmToIn (sum (window24 r))), toFixed1 (cmToIn (sum (window72 r))),
      by simp [fetchOpenMeteoSnow, hok, hn]⟩

/-- Witness for C5: a NaN entry between two finite entries contributes 0,
and `respOk1` yields numeric totals. -/
theorem c5_nonfinite_zero_witness :
    sum ([JVal.num 1] ++ JVal.nan :: [JVal.num 2]) = sum ([JVal.num 1] ++ [JVal.num 2]) ∧
    ∃ q24 q72 : ℚ, fetchOpenMeteoSnow respOk1 = .ok ⟨some q24, some q72⟩ :=
  c5_nonfinite_zero [JVal.num 1] [JVal.num 2] .nan rfl respOk1 rfl (by decide)

/-! ### Claim C3 (corrected) -/

/-- C3 counterexample: the claim reads the windows as trailing elements of
the snowfall array itself, but the source slices the usable prefix
(`snowfallCm.slice(Math.max(0, n - 24), n)`). On `respC3` (one timestamp,
snowfall `[0, 254]`, so `n = 1`), the code's 24-hour total is 0, while the
trailing `min(24, n) = 1` elements of the snowfall array sum to 254 cm,
i.e. a total of 100 inches. -/
theorem c3_counterexample :
    fetchOpenMeteoSnow respC3 = .ok ⟨some 0, some 0⟩ ∧
    toFixed1 (cmToIn (sum (trailingOfArray (snowfallCmOf respC3) (min 24 (usableLen respC3))))) = 100 ∧
    (0 : ℚ) ≠ 100 := by
  refine ⟨?_, ?_, by norm_num⟩
  · norm_num [fetchOpenMeteoSnow, respC3, usableLen, timesOf, snowfallCmOf, window24, window72,
      sum, term, isFiniteVal, finVal, toFixed1, cmToIn, round_eq]
  · norm_num [respC3, usableLen, timesOf, snowfallCmOf, trailingOfArray,
      sum, term, isFiniteVal, finVal, toFixed1, cmToIn, round_eq]

/-- C3 amended: for every provider response with `n = min(len(times),
len(snowfall)) > 0`, the 24-hour total is computed from exactly the trailing
`min(24, n)` elements of the *first `n` elements* of the snowfall array, and
the 72-hour total from exactly the trailing `min(72, n)` elements of the
same usable prefix, the two windows taken independently. -/
theorem c3_windows (r : OMResponse) (hok : r.ok = true) (hn : 0 < usableLen r) :
    fetchOpenMeteoSnow r =
      .ok ⟨some (toFixed1 (cmToIn (sum (windowSpec ((snowfallCmOf r).take (usableLen r)) 24)))),
           some (toFixed1 (cmToIn (sum (windowSpec ((snowfallCmOf r).take (usableLen r)) 72))))⟩ ∧
    (windowSpec ((snowfallCmOf r).take (usableLen r)) 24).length = min 24 (usableLen r) ∧
    (windowSpec ((snowfallCmOf r).take (usableLen r)) 72).length = min 72 (usableLen r) := by
  have hs : usableLen r ≤ (snowfallCmOf r).length := Nat.min_le_right _ _
  obtain ⟨he24, hl24⟩ := windowSpec_eq_drop (snowfallCmOf r) (usableLen r) 24 hs
  obtain ⟨he72, hl72⟩ := windowSpec_eq_drop (snowfallCmOf r) (usableLen r) 72 hs
  have hn0 : usableLen r ≠ 0 := by omega
  refine ⟨?_, hl24, hl72⟩
  simp [fetchOpenMeteoSnow, hok, hn0, window24, window72, he24, he72]

/-- Witness for C3's amended theorem at `respOk1`. -/
theorem c3_windows_witness :
    0 < usableLen respOk1 ∧
    (fetchOpenMeteoSnow respOk1 =
      .ok ⟨some (toFixed1 (cmToIn (sum (windowSpec ((snowfallCmOf respOk1).take (usableLen respOk1)) 24)))),
           some (toFixed1 (cmToIn (sum (windowSpec ((snowfallCmOf respOk1).take (usableLen respOk1)) 72))))⟩ ∧
    (windowSpec ((snowfallCmOf respOk1).take (usableLen respOk1)) 24).length = min 24 (usableLen respOk1) ∧
    (windowSpec ((snowfallCmOf respOk1).take (usableLen respOk1)) 72).length = min 72 (usableLen respOk1)) :=
  ⟨by decide, c3_windows respOk1 rfl (by decide)⟩

/-! ### Claim C8 -/

/-- C8: for every usable series whose window sums are non-negative, each
returned total equals the window's centimeter sum divided by 2.54, rounded
to one decimal with round-half-away-from-zero semantics (`specRound1`); in
particular a 24-hour window summing to 10.0 cm yields 3.9 and a 72-hour
window summing to 15.0 cm yields 5.9. -/
theorem c8_convert_round (r : OMResponse) (hok : r.ok = true) (hn : usableLen r ≠ 0)
    (h24 : 0 ≤ sum (window24 r)) (h72 : 0 ≤ sum (window72 r)) :
    fetchOpenMeteoSnow r =
      .ok ⟨some (specRound1 (sum (window24 r) / 2.54)),
           some (specRound1 (sum (window72 r) / 2.54))⟩ ∧
    specRound1 ((10 : ℚ) / 2.54) = 3.9 ∧ specRound1 ((15 : ℚ) / 2.54) = 5.9 := by
  have e24 : toFixed1 (cmToIn (sum (window24 r))) = specRound1 (sum (window24 r) / 2.54) :=
    toFixed1_eq_specRound1 (div_nonneg h24 (by norm_num))
  have e72 : toFixed1 (cmToIn (sum (window72 r))) = specRound1 (sum (window72 r) / 2.54) :=
    toFixed1_eq_specRound1 (div_nonneg h72 (by norm_num))
  refine ⟨?_, by norm_num [specRound1, roundHalfAway], by norm_num [specRound1, roundHalfAway]⟩
  simp [fetchOpenMeteoSnow, hok, hn, e24, e72]

/-- Witness for C8 at `respOk1` (window sums 0, plus the two concrete
rounding facts). -/
theorem c8_convert_round_witness :
    (0 : ℚ) ≤ sum (window24 respOk1) ∧
    (fetchOpenMeteoSnow respOk1 =
      .ok ⟨some (specRound1 (sum (window24 respOk1) / 2.54)),
           some (specRound1 (sum (window72 respOk1) / 2.54))⟩ ∧
     specRound1 ((10 : ℚ) / 2.54) = 3.9 ∧ specRound1 ((15 : ℚ) / 2.54) = 5.9) :=
  ⟨by norm_num [window24, usableLen, timesOf, snowfallCmOf, respOk1, sum, term, isFiniteVal, finVal],
   c8_convert_round respOk1 rfl (by decide)
     (by norm_num [window24, usableLen, timesOf, snowfallCmOf, respOk1, sum, term, isFiniteVal, finVal])
     (by norm_num [window72, usableLen, timesOf, snowfallCmOf, respOk1, sum, term, isFiniteVal, finVal])⟩

/-! ### Claim C1 (corrected) -/

/-- C1 counterexample: the source handler performs no filtering. With
`filter_state = "ZZ"` — which matches no record, the embedded records having
no `state` field at all — and every fetch succeeding, the success payload's
`resorts` array has all 4 registry entries, not 0 as the claim requires. -/
theorem c1_counterexample :
    resortsCount (handler ⟨some "ZZ"⟩ "2026-01-01T00:00:00Z" envOk0) = some 4 ∧
    resortsCount (handler ⟨some "ZZ"⟩ "2026-01-01T00:00:00Z" envOk0) ≠ some 0 := by
  have h4 : resortsCount (handler ⟨some "ZZ"⟩ "2026-01-01T00:00:00Z" envOk0) = some 4 := rfl
  refine ⟨h4, ?_⟩
  rw [h4]
  simp

/-- C1 amended: the handler ignores any `filter_state` — its output is the
same for every request — and when all fetches succeed the response carries
every registry record (the registry records have no `state` field and no
record is ever filtered out). -/
theorem c1_filter_ignored (req1 req2 : Request) (now : String) (env : Env)
    (h : ∀ r ∈ RESORTS, (env r.lat r.lon).ok = true) :
    handler req1 now env = handler req2 now env ∧
    resortsCount (handler req1 now env) = some RESORTS.length := by
  refine ⟨rfl, ?_⟩
  obtain ⟨xs, hxs, hlen⟩ := tasks_all_ok h
  have hform : resortsCount (handler req1 now env) = some xs.length := by
    unfold handler
    rw [hxs]
    rfl
  rw [hform, hlen]

/-- Witness for C1's amended theorem: two different requests against the
all-success network. -/
theorem c1_filter_ignored_witness :
    (∀ r ∈ RESORTS, (envOk0 r.lat r.lon).ok = true) ∧
    (handler ⟨some "CO"⟩ "t" envOk0 = handler ⟨none⟩ "t" envOk0 ∧
     resortsCount (handler ⟨some "CO"⟩ "t" envOk0) = some RESORTS.length) :=
  ⟨fun _ _ => rfl, c1_filter_ignored ⟨some "CO"⟩ ⟨none⟩ "t" envOk0 (fun _ _ => rfl)⟩

/-! ### Claim C2 (corrected) -/

/-- C2 counterexample: a successful response (status 200) whose payload has
no top-level `filters` field at all, where the claim requires one on every
successful payload. -/
theorem c2_counterexample :
    (handler ⟨some "CO"⟩ "2026-01-01T00:00:00Z" envOk0).1 = 200 ∧
    lookupField (handler ⟨some "CO"⟩ "2026-01-01T00:00:00Z" envOk0).2 "filters" = none :=
  ⟨rfl, rfl⟩

/-- C2 amended: every successful response payload contains a top-level
`updated_at` equal to the construction-time timestamp and a top-level
`source` equal to the fixed descriptive string, but no `filters` field. -/
theorem c2_payload_fields (req : Request) (now : String) (env : Env)
    (h : ∀ r ∈ RESORTS, (env r.lat r.lon).ok = true) :
    lookupField (handler req now env).2 "updated_at" = some (.str now) ∧
    lookupField (handler req now env).2 "source" = some (.str srcDescription) ∧
    lookupField (handler req now env).2 "filters" = none := by
  obtain ⟨xs, hxs, _⟩ := tasks_all_ok h
  unfold handler
  rw [hxs]
  exact ⟨rfl, rfl, rfl⟩

/-- Witness for C2's amended theorem. -/
theorem c2_payload_fields_witness :
    (∀ r ∈ RESORTS, (envOk0 r.lat r.lon).ok = true) ∧
    (lookupField (handler ⟨none⟩ "t" envOk0).2 "updated_at" = some (.str "t") ∧
     lookupField (handler ⟨none⟩ "t" envOk0).2 "source" = some (.str srcDescription) ∧
     lookupField (handler ⟨none⟩ "t" envOk0).2 "filters" = none) :=
  ⟨fun _ _ => rfl, c2_payload_fields ⟨none⟩ "t" envOk0 (fun _ _ => rfl)⟩

/-! ### Claim C7 -/

/-- C7: if any one of the per-resort fetches fails, the entire response is
the 500 error shape `{ error, detail, updated_at }` and no resort appears in
any `resorts` array (the error payload has none). -/
theorem c7_fail_fast (req : Request) (now : String) (env : Env)
    (h : ∃ r ∈ RESORTS, (env r.lat r.lon).ok = false) :
    (∃ d, handler req now env =
      (500, .obj [ ("error", .str "Failed to fetch snow data"),
                   ("detail", .str d),
                   ("updated_at", .str now) ])) ∧
    resortsCount (handler req now env) = none := by
  obtain ⟨r, hr, hbad⟩ := h
  have herr : fetchOpenMeteoSnow (env r.lat r.lon) =
      .error ("Open-Meteo error " ++ toString (env r.lat r.lon).status) := by
    simp [fetchOpenMeteoSnow, hbad]
  have hmem : Except.error ("Open-Meteo error " ++ toString (env r.lat r.lon).status)
      ∈ resortTasks env := by
    apply List.mem_map.mpr
    exact ⟨r, hr, by rw [herr]; rfl⟩
  obtain ⟨f, hf⟩ := promiseAll_error_of_mem hmem
  constructor
  · exact ⟨f, by unfold handler; rw [hf]⟩
  · unfold resortsCount handler
    rw [hf]
    rfl

/-- Witness for C7: every fetch fails with 503 and the handler answers with
the 500 error shape. -/
theorem c7_fail_fast_witness :
    (∃ r ∈ RESORTS, (envBad r.lat r.lon).ok = false) ∧
    ((∃ d, handler ⟨none⟩ "t" envBad =
      (500, .obj [ ("error", .str "Failed to fetch snow data"),
                   ("detail", .str d),
                   ("updated_at", .str "t") ])) ∧
     resortsCount (handler ⟨none⟩ "t" envBad) = none) := by
  have hex : ∃ r ∈ RESORTS, (envBad r.lat r.lon).ok = false := by
    refine ⟨_, List.mem_cons_self _ _, rfl⟩
  exact ⟨hex, c7_fail_fast ⟨none⟩ "t" envBad hex⟩

/-! ### Claim C9 -/

/-- C9: in every successful response the `resorts` array has one entry per
registry record and its `i`-th entry is the report built from the `i`-th
registry record and that record's own fetch result; the embedding's
`promiseAll` returns fulfillment values in input-index order, which is what
`Promise.all` guarantees independently of completion order. -/
theorem c9_order_preserved (req : Request) (now : String) (env : Env) (reports : List Json)
    (h : promiseAll (resortTasks env) = .ok reports) :
    handler req now env =
      (200, .obj [ ("updated_at", .str now),
                   ("source", .str srcDescription),
                   ("resorts", .arr reports) ]) ∧
    reports.length = RESORTS.length ∧
    ∀ i (hi : i < RESORTS.length), ∃ t,
      fetchOpenMeteoSnow (env (RESORTS.get ⟨i, hi⟩).lat (RESORTS.get ⟨i, hi⟩).lon) = .ok t ∧
      reports[i]? = some (reportJson (RESORTS.get ⟨i, hi⟩) t) := by
  have hmap := promiseAll_ok h
  have hlen : reports.length = RESORTS.length := by
    have h1 : (resortTasks env).length = RESORTS.length := by
      unfold resortTasks; simp
    rw [hmap] at h1
    simpa using h1
  refine ⟨by unfold handler; rw [h], hlen, ?_⟩
  intro i hi
  have hi' : i < reports.length := by omega
  have e1 : (resortTasks env)[i]? =
      some ((fetchOpenMeteoSnow (env (RESORTS.get ⟨i, hi⟩).lat (RESORTS.get ⟨i, hi⟩).lon)).map
        (fun t => reportJson (RESORTS.get ⟨i, hi⟩) t)) := by
    unfold resortTasks
    rw [List.getElem?_map, List.getElem?_eq_getElem hi]
    rfl
  have e2 : (resortTasks env)[i]? = some (Except.ok (reports.get ⟨i, hi'⟩)) := by
    rw [hmap, List.getElem?_map, List.getElem?_eq_getElem hi']
    rfl
  rw [e1] at e2
  cases hfetch : fetchOpenMeteoSnow (env (RESORTS.get ⟨i, hi⟩).lat (RESORTS.get ⟨i, hi⟩).lon) with
  | error e =>
      rw [hfetch] at e2
      simp [Except.map] at e2
  | ok t =>
      rw [hfetch] at e2
      simp only [Except.map, Option.some.injEq] at e2
      refine ⟨t, rfl, ?_⟩
      rw [List.getElem?_eq_getElem hi']
      have hg : reports.get ⟨i, hi'⟩ = reportJson (RESORTS.get ⟨i, hi⟩) t :=
        (Except.ok.inj e2).symm
      exact congrArg some hg

/-- Witness for C9: the all-success network, extracting the first entry. -/
theorem c9_order_preserved_witness :
    promiseAll (resortTasks envOk0) = .ok reports0 ∧
    ∃ t, fetchOpenMeteoSnow (envOk0 (RESORTS.get ⟨0, by decide⟩).lat (RESORTS.get ⟨0, by decide⟩).lon) = .ok t ∧
      reports0[0]? = some (reportJson (RESORTS.get ⟨0, by decide⟩) t) := by
  have hp : promiseAll (resortTasks envOk0) = .ok reports0 := by
    norm_num [resortTasks, reports0, RESORTS, promiseAll, envOk0, fetchOpenMeteoSnow, respOk1,
      usableLen, timesOf, snowfallCmOf, window24, window72, sum, term, isFiniteVal, finVal,
      toFixed1, cmToIn, round_eq, Except.map]
  exact ⟨hp, (c9_order_preserved ⟨none⟩ "t" envOk0 reports0 hp).2.2 0 (by decide)⟩

/-! ### Claim C10 -/

/-- C10: for every usable series (`n > 0`) whose usable entries are all
finite and non-negative, the returned 72-hour total is at least the 24-hour
total: the 24-hour window is a suffix of the 72-hour window, summation of
non-negative terms is monotone under window extension, and conversion and
rounding preserve the order. -/
theorem c10_window_monotone (r : OMResponse) (hok : r.ok = true) (hn : 0 < usableLen r)
    (hfin : ∀ v ∈ (snowfallCmOf r).take (usableLen r), isFiniteVal v = true ∧ 0 ≤ finVal v) :
    ∃ a b : ℚ, fetchOpenMeteoSnow r = .ok ⟨some a, some b⟩ ∧ a ≤ b := by
  have hn0 : usableLen r ≠ 0 := by omega
  refine ⟨toFixed1 (cmToIn (sum (window24 r))), toFixed1 (cmToIn (sum (window72 r))),
    by simp [fetchOpenMeteoSnow, hok, hn0], ?_⟩
  apply toFixed1_mono
  apply cmToIn_mono
  have hterm : ∀ v ∈ (snowfallCmOf r).take (usableLen r), 0 ≤ term v := by
    intro v hv
    obtain ⟨hf, hge⟩ := hfin v hv
    simpa [term, hf] using hge
  have h2472 : window24 r = (window72 r).drop ((usableLen r - 24) - (usableLen r - 72)) := by
    unfold window24 window72
    rw [List.drop_drop]
    congr 1
    omega
  rw [h2472]
  apply sum_drop_le
  intro v hv
  exact hterm v (List.drop_subset _ _ hv)

/-- Witness for C10 at `respOk1` (a single finite non-negative entry). -/
theorem c10_window_monotone_witness :
    (∀ v ∈ (snowfallCmOf respOk1).take (usableLen respOk1),
      isFiniteVal v = true ∧ 0 ≤ finVal v) ∧
    ∃ a b : ℚ, fetchOpenMeteoSnow respOk1 = .ok ⟨some a, some b⟩ ∧ a ≤ b := by
  have hfin : ∀ v ∈ (snowfallCmOf respOk1).take (usableLen respOk1),
      isFiniteVal v = true ∧ 0 ≤ finVal v := by
    intro v hv
    norm_num [snowfallCmOf, usableLen, timesOf, respOk1] at hv
    subst hv
    norm_num [isFiniteVal, finVal]
  exact ⟨hfin, c10_window_monotone respOk1 rfl (by decide) hfin⟩

end SnowReport
